import Mathlib

/-!
Shallow embedding of the discord-voice-app core (session lifecycle and
audio-capture pipeline) and proofs about it.

The JavaScript source keeps its state in `Map` and `Set` objects and plain
arrays; here a `Map` is an association list whose `set` replaces the value
of an existing key in place (JS `Map.set` keeps the key's insertion
position) and appends a fresh key at the end, and a `Set` is a duplicate-free
insertion-ordered list.  Audio byte chunks are `List Nat`; timestamps are
naturals (`Date.now()` in milliseconds, divided by 1000 where the source
does).  Environmental effects are passed as explicit parameters: whether
ffmpeg conversion of a recording succeeds (`conv : Recording → Bool`), and
what the transcription service returns for a converted asset
(`tr : String → TranscriptionResult`).
-/

/-- Lookup in a JS `Map` modelled as an association list (`Map.get`). -/
def mapFind {α : Type} (m : List (String × α)) (k : String) : Option α :=
  match m with
  | [] => none
  | (k', v) :: rest => if k' = k then some v else mapFind rest k

/-- JS `Map.set`: replace the first (and, for genuine maps, only) entry with
this key in place, or append a new entry at the end. -/
def mapSet {α : Type} (m : List (String × α)) (k : String) (v : α) :
    List (String × α) :=
  match m with
  | [] => [(k, v)]
  | (k', v') :: rest =>
      if k' = k then (k, v) :: rest else (k', v') :: mapSet rest k v

/-- Update the value stored under a key, if present (models mutating the
object obtained from `Map.get` in place). -/
def mapUpdate {α : Type} (m : List (String × α)) (k : String) (f : α → α) :
    List (String × α) :=
  match m with
  | [] => []
  | (k', v) :: rest =>
      if k' = k then (k', f v) :: rest else (k', v) :: mapUpdate rest k f

/-- JS `Map.delete`: remove the entry with this key. -/
def mapDelete {α : Type} (m : List (String × α)) (k : String) :
    List (String × α) :=
  match m with
  | [] => []
  | (k', v) :: rest => if k' = k then rest else (k', v) :: mapDelete rest k

/-- Number of entries of the association list carrying a given key. -/
def countKey {α : Type} : List (String × α) → String → Nat
  | [], _ => 0
  | (k', _) :: rest, k => (if k' = k then 1 else 0) + countKey rest k

/-- JS `Set.add`: append the element unless it is already present. -/
def setAdd (l : List String) (x : String) : List String :=
  if x ∈ l then l else l ++ [x]

theorem mapFind_mapSet_self {α : Type} (m : List (String × α)) (k : String)
    (v : α) : mapFind (mapSet m k v) k = some v := by
  induction m with
  | nil => simp [mapSet, mapFind]
  | cons p rest ih =>
      obtain ⟨k', v'⟩ := p
      by_cases h : k' = k
      · simp [mapSet, h, mapFind]
      · simp [mapSet, h, mapFind, ih]

theorem mapFind_mapUpdate_self {α : Type} (m : List (String × α)) (k : String)
    (f : α → α) : mapFind (mapUpdate m k f) k = (mapFind m k).map f := by
  induction m with
  | nil => simp [mapUpdate, mapFind]
  | cons p rest ih =>
      obtain ⟨k', v'⟩ := p
      by_cases h : k' = k
      · simp [mapUpdate, h, mapFind]
      · simp [mapUpdate, h, mapFind, ih]

theorem countKey_mapSet_self {α : Type} (m : List (String × α)) (k : String)
    (v : α) : countKey (mapSet m k v) k = max (countKey m k) 1 := by
  induction m with
  | nil => simp [mapSet, countKey]
  | cons p rest ih =>
      obtain ⟨k', v'⟩ := p
      by_cases h : k' = k
      · subst h
        simp only [mapSet, if_pos rfl, countKey, if_true, eq_self_iff_true]
        omega
      · simp only [mapSet, if_neg h, countKey, ih]
        omega

theorem countKey_mapSet_ne {α : Type} (m : List (String × α)) {k c : String}
    (v : α) (h : k ≠ c) : countKey (mapSet m k v) c = countKey m c := by
  induction m with
  | nil => simp [mapSet, countKey, h]
  | cons p rest ih =>
      obtain ⟨k', v'⟩ := p
      by_cases hk : k' = k
      · subst hk
        simp only [mapSet, if_pos rfl, countKey]
      · simp only [mapSet, if_neg hk, countKey, ih]

theorem countKey_mapSet_le {α : Type} (m : List (String × α)) (k c : String)
    (v : α) : countKey (mapSet m k v) c ≤ max (countKey m c) 1 := by
  by_cases h : k = c
  · subst h
    rw [countKey_mapSet_self]
  · rw [countKey_mapSet_ne m v h]
    omega

theorem countKey_mapUpdate {α : Type} (m : List (String × α)) (k c : String)
    (f : α → α) : countKey (mapUpdate m k f) c = countKey m c := by
  induction m with
  | nil => simp [mapUpdate]
  | cons p rest ih =>
      obtain ⟨k', v'⟩ := p
      by_cases h : k' = k
      · simp only [mapUpdate, if_pos h, countKey]
      · simp only [mapUpdate, if_neg h, countKey, ih]

theorem countKey_mapDelete_le {α : Type} (m : List (String × α)) (k c : String) :
    countKey (mapDelete m k) c ≤ countKey m c := by
  induction m with
  | nil => simp [mapDelete]
  | cons p rest ih =>
      obtain ⟨k', v'⟩ := p
      by_cases h : k' = k
      · simp only [mapDelete, if_pos h, countKey]
        omega
      · simp only [mapDelete, if_neg h, countKey]
        omega

/-! ## AudioRecorder (src/src/services/audioRecorder.js)

A `Recording` is the per-user object built by `startRecording`: the write
stream plus the pushed chunk list.  The bytes written to the stream are
exactly the chunks pushed, in order, so the sink's content is the
concatenation of `chunks`.  `wavPath` is set by a successful
`convertToWav`; the `.pcm`/`.wav` file names are the source's
`sessionId_userId_timestamp` scheme. -/

structure Recording where
  userId : String
  username : String
  sessionId : String
  startTimeMs : Nat
  chunks : List (List Nat)
  endTimeMs : Option Nat
  wavPath : Option String
deriving DecidableEq

structure AudioRecorder where
  recordings : List (String × Recording)
deriving DecidableEq

/-- The `.wav` file path produced by `convertToWav` for a recording
(`filename.replace('.pcm', '.wav')`). -/
def wavName (r : Recording) : String :=
  r.sessionId ++ "_" ++ r.userId ++ "_" ++ Nat.repr r.startTimeMs ++ ".wav"

/-- AudioRecorder.startRecording: store a fresh recording under the user's
id (a `Map.set`, so an existing open recording for the user is replaced).
The source also returns the recording object; no caller uses it. -/
def startRecording (rec : AudioRecorder) (userId username sessionId : String)
    (nowMs : Nat) : AudioRecorder :=
  { recordings :=
      mapSet rec.recordings userId
        { userId := userId, username := username, sessionId := sessionId,
          startTimeMs := nowMs, chunks := [], endTimeMs := none,
          wavPath := none } }

/-- AudioRecorder.handleAudioData: append the chunk to the user's open
recording (stream write + `chunks.push`); silently do nothing when the user
has no open recording. -/
def handleAudioData (rec : AudioRecorder) (userId : String)
    (chunk : List Nat) : AudioRecorder :=
  match mapFind rec.recordings userId with
  | none => rec
  | some _ =>
      { recordings :=
          mapUpdate rec.recordings userId
            (fun r => { r with chunks := r.chunks ++ [chunk] }) }

/-- The bytes accumulated in a recording's sink: the concatenation of the
fed chunks in arrival order. -/
def recordingContent (r : Recording) : List Nat :=
  r.chunks.flatten

/-- A stopped recording as `stopRecording` resolves it on the successful
conversion path: end time recorded and `wavPath` set. -/
def finishRecording (r : Recording) (nowMs : Nat) : Recording :=
  { r with endTimeMs := some nowMs, wavPath := some (wavName r) }

/-- AudioRecorder.stopRecording: resolves `none` when the user has no open
recording; otherwise deletes the map entry, then conversion either succeeds
(the finished recording) or the promise rejects (`ConversionFailed`, the
ffmpeg error).  In both conversion outcomes the entry is already deleted. -/
def stopRecording (rec : AudioRecorder) (userId : String)
    (conv : Recording → Bool) (nowMs : Nat) :
    AudioRecorder × Except String (Option Recording) :=
  match mapFind rec.recordings userId with
  | none => (rec, .ok none)
  | some r =>
      let rec' : AudioRecorder :=
        { recordings := mapDelete rec.recordings userId }
      if conv r then (rec', .ok (some (finishRecording r nowMs)))
      else (rec', .error "ConversionFailed")

/-- Results of the `Promise.all` inside stopAllRecordings: the stopped
recordings in key order, or the first conversion rejection. -/
def stopAllGo (conv : Recording → Bool) (nowMs : Nat) :
    List (String × Recording) → Except String (List Recording)
  | [] => .ok []
  | (_, r) :: rest =>
      if conv r then
        match stopAllGo conv nowMs rest with
        | .ok rs => .ok (finishRecording r nowMs :: rs)
        | .error e => .error e
      else .error "ConversionFailed"

/-- AudioRecorder.stopAllRecordings: stops every open recording (each
deletes its own entry before converting, so the map ends empty whatever the
conversion outcomes) and `Promise.all`s the results, which rejects as soon
as any conversion fails. -/
def stopAllRecordings (rec : AudioRecorder) (conv : Recording → Bool)
    (nowMs : Nat) : AudioRecorder × Except String (List Recording) :=
  (⟨[]⟩, stopAllGo conv nowMs rec.recordings)

/-! ## TranscriptionService (src/src/services/analyticsEngine.js, Gemini
variant)

Confidence values are tenths (`0, 5, 6, 7, 8, 9` for the source's
`0, 0.5, 0.6, 0.7, 0.8, 0.9`): the source only ever returns these literal
constants and compares nothing, so the scaling is exact.  The backend call
is a parameter `backend : Except String String` (the transcription text, or
the thrown error's message); file state is the size in bytes. -/

/-- Counting state machine for `text.split(/\s+/).filter(w => w.length > 0)
.length`: the number of maximal non-whitespace runs.  The flag says whether
the previous character was inside a run. -/
def countTokensAux : List Char → Bool → Nat
  | [], _ => 0
  | c :: rest, inTok =>
      if c.isWhitespace then countTokensAux rest false
      else (if inTok then 0 else 1) + countTokensAux rest true

/-- Word count as the source computes it from a transcription text. -/
def wordCountJS (s : String) : Nat :=
  countTokensAux s.data false

/-- Whether the pattern occurs at the head of the character list. -/
def beginsWith : List Char → List Char → Bool
  | [], _ => true
  | _ :: _, [] => false
  | p :: ps, c :: cs => p == c && beginsWith ps cs

/-- Whether the pattern occurs anywhere in the character list
(JS `String.includes`). -/
def containsSeq (pat : List Char) : List Char → Bool
  | [] => beginsWith pat []
  | c :: cs => beginsWith pat (c :: cs) || containsSeq pat cs

/-- The source's error-marker test:
`transcriptionText.includes('[Transcription failed')`. -/
def containsFailedMarker (s : String) : Bool :=
  containsSeq "[Transcription failed".data s.data

/-- TranscriptionService.calculateConfidence (Gemini variant): zero for
empty or error-marked text, otherwise fixed bands by word count. -/
def calculateConfidence (text : String) (wordCount : Nat) : Nat :=
  if text.data.isEmpty then 0
  else if containsFailedMarker text then 0
  else if wordCount > 20 then 9
  else if wordCount > 10 then 8
  else if wordCount > 5 then 7
  else if wordCount > 0 then 6
  else 5

/-- The confidence the service attaches to a transcription text. -/
def confidenceOf (text : String) : Nat :=
  calculateConfidence text (wordCountJS text)

/-- Shape of the object TranscriptionService.transcribeAudio resolves with:
text, declared language, estimated duration, word count, confidence
(tenths) and the optional error marker. -/
structure TranscriptionResult where
  text : String
  language : Option String
  duration : Nat
  wordCount : Nat
  confidence : Nat
  error : Option String
deriving DecidableEq

/-- Gemini API file-size ceiling checked by transcribeAudio (20 MB). -/
def maxTranscribeSize : Nat := 20 * 1024 * 1024

/-- Ceiling above which transcribeLargeFile rejects outright (50 MB). -/
def maxLargeFileSize : Nat := 50 * 1024 * 1024

mutual
/-- TranscriptionService.transcribeAudio over a file of `size` bytes with
the given backend outcome.  The source's `transcribeAudio` and
`transcribeLargeFile` call each other, and for sizes in
(20 MB, 50 MB] neither ever reaches a base case, so the embedding carries
fuel: `none` means the fuel ran out, which for that band happens for every
fuel amount (the calls never return).  Duration is the source's
`stats.size / (48000 * 2 * 2)` estimate (integer division here; the claims
never inspect it). -/
def transcribeAudioF : Nat → Nat → Except String String →
    Option TranscriptionResult
  | 0, _, _ => none
  | fuel + 1, size, backend =>
      if size = 0 then
        some { text := "", language := none, duration := 0, wordCount := 0,
               confidence := 0, error := none }
      else if size > maxTranscribeSize then
        transcribeLargeFileF fuel size backend
      else
        match backend with
        | .ok t =>
            some { text := t, language := some "en",
                   duration := size / 192000, wordCount := wordCountJS t,
                   confidence := calculateConfidence t (wordCountJS t),
                   error := none }
        | .error e =>
            some { text := "[Transcription failed: " ++ e ++ "]",
                   language := none, duration := 0, wordCount := 0,
                   confidence := 0, error := some e }

/-- TranscriptionService.transcribeLargeFile: rejects >50 MB files with a
too-large marker, otherwise tries `transcribeAudio` again on the same
path. -/
def transcribeLargeFileF : Nat → Nat → Except String String →
    Option TranscriptionResult
  | 0, _, _ => none
  | fuel + 1, size, backend =>
      if size > maxLargeFileSize then
        some { text := "[Audio file too large for transcription (max 50MB)]",
               language := none, duration := 0, wordCount := 0,
               confidence := 0, error := none }
      else
        transcribeAudioF fuel size backend
end

/-! ## Database rows (src/src/database/init.js, src/unnamed/part_000)

Only the columns the claims touch are carried.  `participants` has no
uniqueness constraint on (session_id, user_id): `addParticipant` is a plain
INSERT. -/

structure DbSession where
  session_id : String
  guild_id : String
  channel_id : String
  start_time : Nat
  end_time : Option Nat
  duration : Option Nat
  status : String
  participant_count : Nat
deriving DecidableEq

structure DbParticipant where
  session_id : String
  user_id : String
  username : String
  joined_at : Nat
  left_at : Option Nat
  duration : Option Nat
deriving DecidableEq

structure DbTranscription where
  session_id : String
  user_id : String
  username : String
  audio_file : String
  transcript : String
  confidence : Nat
  language : Option String
  timestamp : Nat
  duration : Nat
  word_count : Nat
deriving DecidableEq

structure DB where
  sessions : List DbSession
  participants : List DbParticipant
  transcriptions : List DbTranscription
deriving DecidableEq

/-- DatabaseQueries.createSession: INSERT a session row (status defaults to
'active'). -/
def dbCreateSession (db : DB) (s : DbSession) : DB :=
  { db with sessions := db.sessions ++ [s] }

/-- DatabaseQueries.addParticipant: a plain INSERT, so a repeated call for
the same (session, user) adds a second row. -/
def dbAddParticipant (db : DB) (p : DbParticipant) : DB :=
  { db with participants := db.participants ++ [p] }

/-- DatabaseQueries.removeParticipant: UPDATE left_at/duration on the rows
of this session and user that are still open (`left_at IS NULL`). -/
def dbRemoveParticipant (db : DB) (sid uid : String) (leftAt dur : Nat) :
    DB :=
  { db with participants :=
      db.participants.map (fun p =>
        if p.session_id = sid ∧ p.user_id = uid ∧ p.left_at = none then
          { p with left_at := some leftAt, duration := some dur }
        else p) }

/-- DatabaseQueries.endSession: UPDATE the session row with end time,
duration, status 'completed' and the final participant count. -/
def dbEndSession (db : DB) (sid : String) (endTime dur cnt : Nat) : DB :=
  { db with sessions :=
      db.sessions.map (fun s =>
        if s.session_id = sid then
          { s with end_time := some endTime, duration := some dur,
                   status := "completed", participant_count := cnt }
        else s) }

/-- DatabaseQueries.addTranscription: INSERT a transcription row. -/
def dbAddTranscription (db : DB) (t : DbTranscription) : DB :=
  { db with transcriptions := db.transcriptions ++ [t] }

/-! ## SessionManager (src/unnamed/part_002, class SessionManager) -/

structure User where
  id : String
  username : String
  bot : Bool
deriving DecidableEq

structure Channel where
  id : String
  name : String
  members : List User
deriving DecidableEq

structure Guild where
  id : String
  name : String
deriving DecidableEq

/-- An entry of `SessionManager.activeSessions`: the session row data plus
the in-memory participant `Set` (the source also carries an unused
`recordings` map; it is read nowhere and omitted). -/
structure Session where
  session_id : String
  guild_id : String
  channel_id : String
  channel_name : String
  start_time : Nat
  participants : List String
deriving DecidableEq

/-- An entry of `SessionManager.userSessions`. -/
structure UserSession where
  sessionId : String
  startTime : Nat
deriving DecidableEq

structure SMState where
  db : DB
  recorder : AudioRecorder
  activeSessions : List (String × Session)
  userSessions : List (String × UserSession)
deriving DecidableEq

/-- What `endSession` resolves with when a session existed. -/
structure EndResult where
  sessionId : String
  duration : Nat
  participantCount : Nat
deriving DecidableEq

/-- Whether a transcription text is skipped by processRecording:
`!text || text.trim().length === 0`, i.e. every character is whitespace. -/
def trimmedEmpty (s : String) : Bool :=
  s.data.all Char.isWhitespace

/-- The transcription rows processRecording inserts for one stopped
recording: none when the recording has no WAV asset or the transcription
text trims to empty, otherwise one row stored under the sessionId passed by
the caller. -/
def trRows (sessionId : String) (tr : String → TranscriptionResult)
    (r : Recording) : List DbTranscription :=
  match r.wavPath with
  | none => []
  | some wav =>
      let t := tr wav
      if trimmedEmpty t.text then []
      else
        [{ session_id := sessionId, user_id := r.userId,
           username := r.username, audio_file := wav, transcript := t.text,
           confidence := t.confidence, language := t.language,
           timestamp := r.startTimeMs / 1000, duration := t.duration,
           word_count := t.wordCount }]

/-- SessionManager.processRecording: transcribe one stopped recording and
save the result under the sessionId handed in by the caller; recordings
without a WAV asset or with empty (trimmed) text are skipped.  The body is
wrapped in try/catch, so it never throws. -/
def processRecording (db : DB) (r : Recording) (sessionId : String)
    (tr : String → TranscriptionResult) : DB :=
  { db with transcriptions := db.transcriptions ++ trRows sessionId tr r }

/-- SessionManager.createSession: INSERT the session row and store the
in-memory session under the channel id. -/
def createSessionSM (sm : SMState) (channel : Channel) (guild : Guild)
    (sessionId : String) (nowMs : Nat) : SMState :=
  let startTime := nowMs / 1000
  { sm with
    db := dbCreateSession sm.db
      { session_id := sessionId, guild_id := guild.id,
        channel_id := channel.id, start_time := startTime, end_time := none,
        duration := none, status := "active", participant_count := 0 },
    activeSessions :=
      mapSet sm.activeSessions channel.id
        { session_id := sessionId, guild_id := guild.id,
          channel_id := channel.id, channel_name := channel.name,
          start_time := startTime, participants := [] } }

/-- SessionManager.addParticipant: no-op without an active session for the
channel or for a bot; otherwise add the user to the in-memory participant
set, INSERT a participant row, (re)set the user-session entry and start a
fresh recording for the user. -/
def addParticipantSM (sm : SMState) (sessionId : String) (user : User)
    (channelId : String) (nowMs : Nat) : SMState :=
  match mapFind sm.activeSessions channelId with
  | none => sm
  | some _ =>
      if user.bot then sm
      else
        let joinedAt := nowMs / 1000
        { db := dbAddParticipant sm.db
            { session_id := sessionId, user_id := user.id,
              username := user.username, joined_at := joinedAt,
              left_at := none, duration := none },
          recorder :=
            startRecording sm.recorder user.id user.username sessionId nowMs,
          activeSessions :=
            mapUpdate sm.activeSessions channelId
              (fun s => { s with participants := setAdd s.participants user.id }),
          userSessions :=
            mapSet sm.userSessions user.id
              { sessionId := sessionId, startTime := joinedAt } }

/-- One step of endSession's loop over `session.participants`: close the
participant's DB rows and drop the user-session entry when it belongs to
the ending session. -/
def closeParticipant (sid : String) (endTime : Nat)
    (acc : DB × List (String × UserSession)) (uid : String) :
    DB × List (String × UserSession) :=
  match mapFind acc.2 uid with
  | some us =>
      if us.sessionId = sid then
        (dbRemoveParticipant acc.1 sid uid endTime (endTime - us.startTime),
         mapDelete acc.2 uid)
      else acc
  | none => acc

/-- SessionManager.endSession: resolves `null` when the channel has no
active session.  Otherwise stops every open recording in the recorder; if
any conversion rejects, the rejection propagates out of `endSession`
(nothing after the `await` runs: the session stays in `activeSessions`, the
database is untouched).  On success every stopped recording is processed
under this session's id, still-present participants are closed, the session
row is completed and the session leaves the active set. -/
def endSessionSM (sm : SMState) (channelId : String)
    (conv : Recording → Bool) (tr : String → TranscriptionResult)
    (nowMs : Nat) : SMState × Except String (Option EndResult) :=
  match mapFind sm.activeSessions channelId with
  | none => (sm, .ok none)
  | some session =>
      let endTime := nowMs / 1000
      let dur := endTime - session.start_time
      let stopped := stopAllRecordings sm.recorder conv nowMs
      match stopped.2 with
      | .error e => ({ sm with recorder := stopped.1 }, .error e)
      | .ok recs =>
          let db1 := recs.foldl
            (fun d r => processRecording d r session.session_id tr) sm.db
          let closed := session.participants.foldl
            (closeParticipant session.session_id endTime)
            (db1, sm.userSessions)
          let db3 := dbEndSession closed.1 session.session_id endTime dur
            session.participants.length
          ({ db := db3, recorder := stopped.1,
             activeSessions := mapDelete sm.activeSessions channelId,
             userSessions := closed.2 },
           .ok (some { sessionId := session.session_id, duration := dur,
                       participantCount := session.participants.length }))

/-! ## VoiceConnectionHandler (src/src/services/voiceConnectionHandler.js)

`entersState(connection, Ready, 30000)` either resolves or rejects after
the timeout; the outcome is the `ready : Bool` parameter.  A rejection is
caught, logged and rethrown, and at that point nothing has been stored in
`connections`. -/

structure ConnData where
  sessionId : String
  channelId : String
  guildId : String
deriving DecidableEq

structure BotState where
  sm : SMState
  connections : List (String × ConnData)
  receivers : List String
deriving DecidableEq

/-- What joinChannel resolves with: the freshly created session's
connection, or the already-stored connection for the channel (the source
returns it from the early `connections.has` check without touching any
state). -/
inductive JoinOutcome where
  | existingConnection
  | joined (sessionId : String)
deriving DecidableEq

/-- VoiceConnectionHandler.joinChannel: returns the existing connection if
one is stored for the channel; otherwise waits for Ready (propagating the
timeout rejection), creates the session, stores the connection, registers
the receiver and seeds a participant (with a capture) for every non-bot
member already in the channel. -/
def joinChannel (st : BotState) (channel : Channel) (guild : Guild)
    (ready : Bool) (sessionId : String) (nowMs : Nat) :
    BotState × Except String JoinOutcome :=
  if (mapFind st.connections channel.id).isSome then
    (st, .ok .existingConnection)
  else if !ready then (st, .error "ConnectTimeout")
  else
    let sm1 := createSessionSM st.sm channel guild sessionId nowMs
    let conns := mapSet st.connections channel.id
      { sessionId := sessionId, channelId := channel.id, guildId := guild.id }
    let recvs := setAdd st.receivers channel.id
    let sm2 := channel.members.foldl
      (fun s m => if m.bot then s
                  else addParticipantSM s sessionId m channel.id nowMs) sm1
    ({ sm := sm2, connections := conns, receivers := recvs },
     .ok (.joined sessionId))

/-- VoiceConnectionHandler.leaveChannel: resolves without effect when no
connection is stored for the channel; otherwise ends the session (a
rejection there is caught, logged and rethrown, leaving the connection
stored), then destroys and forgets the connection and resolves with the
session id. -/
def leaveChannel (st : BotState) (channelId : String)
    (conv : Recording → Bool) (tr : String → TranscriptionResult)
    (nowMs : Nat) : BotState × Except String (Option String) :=
  match mapFind st.connections channelId with
  | none => (st, .ok none)
  | some cd =>
      let ended := endSessionSM st.sm channelId conv tr nowMs
      match ended.2 with
      | .error e => ({ st with sm := ended.1 }, .error e)
      | .ok _ =>
          ({ sm := ended.1,
             connections := mapDelete st.connections channelId,
             receivers := st.receivers.filter (fun c => c ≠ channelId) },
           .ok (some cd.sessionId))

/-- The session start and end operations reachable from the outside:
`joinChannel` (which performs `createSession`) and `leaveChannel` / a bare
`endSession` (the latter covers endSession being reached on its own).
Operations are atomic here: the source runs on a single-threaded event
loop, and every mutation of `activeSessions` happens inside one
synchronous segment of these functions. -/
inductive SessionOp where
  | join (channel : Channel) (guild : Guild) (ready : Bool)
      (sessionId : String) (nowMs : Nat)
  | leave (channelId : String) (conv : Recording → Bool)
      (tr : String → TranscriptionResult) (nowMs : Nat)
  | endOnly (channelId : String) (conv : Recording → Bool)
      (tr : String → TranscriptionResult) (nowMs : Nat)

/-- Execute one operation, keeping only the state. -/
def stepOp (st : BotState) (op : SessionOp) : BotState :=
  match op with
  | .join channel guild ready sid nowMs =>
      (joinChannel st channel guild ready sid nowMs).1
  | .leave channelId conv tr nowMs =>
      (leaveChannel st channelId conv tr nowMs).1
  | .endOnly channelId conv tr nowMs =>
      { st with sm := (endSessionSM st.sm channelId conv tr nowMs).1 }

/-- The empty initial state: no database rows, no recordings, no sessions,
no connections. -/
def initBot : BotState :=
  { sm := { db := { sessions := [], participants := [], transcriptions := [] },
            recorder := { recordings := [] },
            activeSessions := [], userSessions := [] },
    connections := [], receivers := [] }

/-- Run a sequence (interleaving) of session start/end operations from
the initial state. -/
def runOps (ops : List SessionOp) : BotState :=
  ops.foldl stepOp initBot

/-! ## Shared concrete fixtures for witnesses and counterexamples -/

/-- A stub transcription-service outcome used where a claim does not
depend on the transcription content. -/
def trStub : TranscriptionResult :=
  { text := "hello", language := some "en", duration := 1, wordCount := 1,
    confidence := 6, error := none }

/-- The stub as a transcription oracle. -/
def trStubFn : String → TranscriptionResult := fun _ => trStub

/-- The empty database. -/
def dbEmpty : DB := { sessions := [], participants := [], transcriptions := [] }

/-! ## C10 — feeding without an open recording -/

/-- C10: feeding an audio chunk for a user who has no open recording
(never started, or already stopped) raises no error — `handleAudioData` is
total — and leaves the recorder state completely unchanged: the chunk is
silently discarded. -/
theorem handleAudioData_without_recording_noop (rec : AudioRecorder)
    (u : String) (chunk : List Nat) (h : mapFind rec.recordings u = none) :
    handleAudioData rec u chunk = rec := by
  unfold handleAudioData
  rw [h]

/-- A recorder with one open recording, for a different user. -/
def c10Recorder : AudioRecorder :=
  startRecording { recordings := [] } "alice" "Alice" "s1" 1000

theorem handleAudioData_without_recording_noop_witness :
    handleAudioData c10Recorder "bob" [1, 2, 3] = c10Recorder :=
  handleAudioData_without_recording_noop c10Recorder "bob" [1, 2, 3]
    (by decide)

/-! ## C4 — per-user chunk order -/

/-- Feed a sequence of audio chunks for one user, in arrival order. -/
def feedAll (rec : AudioRecorder) (u : String) (chunks : List (List Nat)) :
    AudioRecorder :=
  chunks.foldl (fun r ch => handleAudioData r u ch) rec

/-- C4: for every user with an open capture and every sequence of chunks
fed for that user, the capture accumulates exactly the fed chunks appended
in arrival order, and its byte content is the prior content followed by
the concatenation of the fed chunks (so feeding `[A, B, C]` into a fresh
capture yields content `A ++ B ++ C`). -/
theorem feed_preserves_chunk_order (rec : AudioRecorder) (u : String)
    (r : Recording) (h : mapFind rec.recordings u = some r)
    (chunks : List (List Nat)) :
    mapFind (feedAll rec u chunks).recordings u
      = some { r with chunks := r.chunks ++ chunks } ∧
    recordingContent { r with chunks := r.chunks ++ chunks }
      = recordingContent r ++ chunks.flatten := by
  constructor
  · induction chunks generalizing rec r with
    | nil => simpa [feedAll] using h
    | cons ch rest ih =>
        have hstep : mapFind (handleAudioData rec u ch).recordings u
            = some { r with chunks := r.chunks ++ [ch] } := by
          unfold handleAudioData
          rw [h]
          simp [mapFind_mapUpdate_self, h]
        have := ih (handleAudioData rec u ch)
          { r with chunks := r.chunks ++ [ch] } hstep
        simpa [feedAll] using this
  · simp [recordingContent]

/-- A freshly opened capture for user `u1`. -/
def c4Rec : Recording :=
  { userId := "u1", username := "User One", sessionId := "s1",
    startTimeMs := 5, chunks := [], endTimeMs := none, wavPath := none }

def c4Recorder : AudioRecorder := { recordings := [("u1", c4Rec)] }

theorem feed_preserves_chunk_order_witness :
    mapFind (feedAll c4Recorder "u1" [[1, 2], [3], [4, 5]]).recordings "u1"
      = some { c4Rec with chunks := c4Rec.chunks ++ [[1, 2], [3], [4, 5]] } ∧
    recordingContent { c4Rec with chunks := c4Rec.chunks ++ [[1, 2], [3], [4, 5]] }
      = recordingContent c4Rec ++ [[1, 2], [3], [4, 5]].flatten :=
  feed_preserves_chunk_order c4Recorder "u1" c4Rec (by decide)
    [[1, 2], [3], [4, 5]]

/-! ## C8 — confidence bands -/

/-- C8 counterexample to the claim as stated: the whitespace-only text
`" "` and the empty text `""` are both non-error texts with word count 0,
yet the first gets confidence 0.5 (5 tenths) and the second 0, so
confidence is not monotonically non-decreasing in word count over all
non-error texts. -/
theorem confidence_not_monotone_cex :
    containsFailedMarker " " = false ∧ containsFailedMarker "" = false ∧
    wordCountJS " " = 0 ∧ wordCountJS "" = 0 ∧
    confidenceOf " " = 5 ∧ confidenceOf "" = 0 := by
  decide

/-- C8 (amended): over nonempty, non-error-marked texts the estimated
confidence is monotonically non-decreasing in the word count, and empty or
error-marked text yields confidence 0; a nonempty zero-word text (e.g.
whitespace only) yields 0.5, which is why the empty text must be excluded
from the monotone part. -/
theorem confidence_monotone_on_nonempty (t1 t2 : String)
    (h1 : t1.data ≠ []) (h2 : t2.data ≠ [])
    (m1 : containsFailedMarker t1 = false)
    (m2 : containsFailedMarker t2 = false)
    (hw : wordCountJS t1 ≤ wordCountJS t2) :
    confidenceOf t1 ≤ confidenceOf t2 ∧ confidenceOf "" = 0 ∧
    (∀ t : String, containsFailedMarker t = true → confidenceOf t = 0) := by
  refine ⟨?_, by decide, ?_⟩
  · have e1 : t1.data.isEmpty = false := by
      cases hd : t1.data with
      | nil => exact absurd hd h1
      | cons a l => rfl
    have e2 : t2.data.isEmpty = false := by
      cases hd : t2.data with
      | nil => exact absurd hd h2
      | cons a l => rfl
    unfold confidenceOf calculateConfidence
    rw [e1, e2, m1, m2]
    simp only [Bool.false_eq_true, if_false]
    split_ifs <;> omega
  · intro t ht
    unfold confidenceOf calculateConfidence
    rw [ht]
    split <;> simp

theorem confidence_monotone_on_nonempty_witness :
    confidenceOf "one two" ≤ confidenceOf "a b c d e f g" ∧
    confidenceOf "" = 0 ∧
    (∀ t : String, containsFailedMarker t = true → confidenceOf t = 0) :=
  confidence_monotone_on_nonempty "one two" "a b c d e f g"
    (by decide) (by decide) (by decide) (by decide) (by decide)

/-! ## C5 — the mid-size transcription loop -/

/-- For every file size strictly between the 20 MB direct-transcription
ceiling and the 50 MB outright-rejection ceiling, `transcribeAudio` and
`transcribeLargeFile` delegate to each other without ever reaching a base
case: whatever fuel the embedding grants, no result is produced. -/
theorem transcribe_midsize_diverges_aux (fuel : Nat) :
    ∀ size backend, maxTranscribeSize < size → size ≤ maxLargeFileSize →
      transcribeAudioF fuel size backend = none ∧
      transcribeLargeFileF fuel size backend = none := by
  induction fuel with
  | zero => intro size backend h1 h2; exact ⟨rfl, rfl⟩
  | succ n ih =>
      intro size backend h1 h2
      constructor
      · unfold transcribeAudioF
        rw [if_neg (by omega : ¬size = 0), if_pos h1]
        exact (ih size backend h1 h2).2
      · unfold transcribeLargeFileF
        rw [if_neg (by omega : ¬size > maxLargeFileSize)]
        exact (ih size backend h1 h2).1

/-- C5 at the failing input: for a 21 MiB audio file the dispatch never
returns at all — for every amount of fuel and every backend outcome it
produces no Transcript-shaped result — where the claim (and the source's
own comment, which means to "try with the file directly") expects an
error-marked Transcript to come back rather than an exception. -/
theorem transcribeAudio_midsize_never_returns (fuel : Nat)
    (backend : Except String String) :
    transcribeAudioF fuel (21 * 1024 * 1024) backend = none :=
  (transcribe_midsize_diverges_aux fuel (21 * 1024 * 1024) backend
    (by norm_num [maxTranscribeSize])
    (by norm_num [maxTranscribeSize, maxLargeFileSize])).1

/-- On the sizes the direct path does handle, a backend failure is caught
and mapped to the error-marker Transcript contract: error text, zero word
count, zero confidence, never an exception. -/
theorem transcribeAudio_backend_error_marker (fuel size : Nat) (e : String)
    (h0 : size ≠ 0) (hs : size ≤ maxTranscribeSize) :
    transcribeAudioF (fuel + 1) size (.error e)
      = some { text := "[Transcription failed: " ++ e ++ "]",
               language := none, duration := 0, wordCount := 0,
               confidence := 0, error := some e } := by
  unfold transcribeAudioF
  rw [if_neg h0, if_neg (by omega : ¬size > maxTranscribeSize)]

/-! ## C3 — at most one active session per channel -/

theorem countKey_addParticipant (sm : SMState) (sid : String) (u : User)
    (cid c : String) (nowMs : Nat) :
    countKey (addParticipantSM sm sid u cid nowMs).activeSessions c
      = countKey sm.activeSessions c := by
  unfold addParticipantSM
  split
  · rfl
  · split
    · rfl
    · simp [countKey_mapUpdate]

theorem countKey_member_fold (members : List User) (sm : SMState)
    (sid cid c : String) (nowMs : Nat) :
    countKey ((members.foldl
        (fun s m => if m.bot then s else addParticipantSM s sid m cid nowMs)
        sm).activeSessions) c
      = countKey sm.activeSessions c := by
  induction members generalizing sm with
  | nil => rfl
  | cons m rest ih =>
      by_cases hb : m.bot
      · simp only [List.foldl_cons, if_pos hb]
        exact ih sm
      · simp only [List.foldl_cons, if_neg hb]
        rw [ih (addParticipantSM sm sid m cid nowMs),
          countKey_addParticipant]

theorem countKey_createSession (sm : SMState) (channel : Channel)
    (guild : Guild) (sid : String) (nowMs : Nat) (c : String) :
    countKey (createSessionSM sm channel guild sid nowMs).activeSessions c
      ≤ max (countKey sm.activeSessions c) 1 := by
  unfold createSessionSM
  exact countKey_mapSet_le _ _ _ _

theorem countKey_endSession (sm : SMState) (channelId : String)
    (conv : Recording → Bool) (tr : String → TranscriptionResult)
    (nowMs : Nat) (c : String) :
    countKey (endSessionSM sm channelId conv tr nowMs).1.activeSessions c
      ≤ countKey sm.activeSessions c := by
  unfold endSessionSM
  split
  · exact Nat.le_refl _
  · cases hgo : (stopAllRecordings sm.recorder conv nowMs).2 with
    | error e =>
        simp only [hgo]
        exact Nat.le_refl _
    | ok recs =>
        simp only [hgo]
        exact countKey_mapDelete_le _ _ _

theorem countKey_joinChannel (st : BotState) (channel : Channel)
    (guild : Guild) (ready : Bool) (sid : String) (nowMs : Nat) (c : String) :
    countKey (joinChannel st channel guild ready sid nowMs).1.sm.activeSessions c
      ≤ max (countKey st.sm.activeSessions c) 1 := by
  unfold joinChannel
  split
  · exact Nat.le_max_left _ _
  · split
    · exact Nat.le_max_left _ _
    · simp only
      rw [countKey_member_fold]
      exact countKey_createSession _ _ _ _ _ _

theorem countKey_leaveChannel (st : BotState) (channelId : String)
    (conv : Recording → Bool) (tr : String → TranscriptionResult)
    (nowMs : Nat) (c : String) :
    countKey (leaveChannel st channelId conv tr nowMs).1.sm.activeSessions c
      ≤ countKey st.sm.activeSessions c := by
  unfold leaveChannel
  split
  · exact Nat.le_refl _
  · cases hend : (endSessionSM st.sm channelId conv tr nowMs).2 with
    | error e =>
        simp only [hend]
        exact countKey_endSession st.sm channelId conv tr nowMs c
    | ok a =>
        simp only [hend]
        exact countKey_endSession st.sm channelId conv tr nowMs c

/-- C3: for every channel and every state reachable by any interleaving of
session start and end operations (joinChannel with its createSession,
leaveChannel with its endSession, and bare endSession calls) from the
initial state, at most one session is active for that channel:
`activeSessions` never holds two entries for one channel.  Operations are
modelled atomically; the source's single-threaded event loop performs every
`activeSessions` mutation inside one synchronous segment, and the map's
keying by channel id is what the proof rests on. -/
theorem runOps_at_most_one_active_session (ops : List SessionOp)
    (c : String) :
    countKey (runOps ops).sm.activeSessions c ≤ 1 := by
  have step : ∀ st op, countKey st.sm.activeSessions c ≤ 1 →
      countKey (stepOp st op).sm.activeSessions c ≤ 1 := by
    intro st op hst
    cases op with
    | join channel guild ready sid nowMs =>
        have := countKey_joinChannel st channel guild ready sid nowMs c
        simp only [stepOp]
        omega
    | leave channelId conv tr nowMs =>
        have := countKey_leaveChannel st channelId conv tr nowMs c
        simp only [stepOp]
        omega
    | endOnly channelId conv tr nowMs =>
        have := countKey_endSession st.sm channelId conv tr nowMs c
        simp only [stepOp]
        omega
  have main : ∀ (l : List SessionOp) (st : BotState),
      countKey st.sm.activeSessions c ≤ 1 →
      countKey (l.foldl stepOp st).sm.activeSessions c ≤ 1 := by
    intro l
    induction l with
    | nil => intro st hst; exact hst
    | cons op rest ih =>
        intro st hst
        exact ih (stepOp st op) (step st op hst)
  exact main ops initBot (by simp [initBot, countKey])

/-! ## stopAllRecordings outcome lemmas -/

theorem stopAllGo_ok (conv : Recording → Bool) (nowMs : Nat)
    (l : List (String × Recording))
    (hc : ∀ p ∈ l, conv p.2 = true) :
    stopAllGo conv nowMs l = .ok (l.map (fun p => finishRecording p.2 nowMs)) := by
  induction l with
  | nil => rfl
  | cons p rest ih =>
      obtain ⟨k, r⟩ := p
      have hr : conv r = true := hc (k, r) (List.mem_cons_self _ _)
      have hrest : ∀ q ∈ rest, conv q.2 = true :=
        fun q hq => hc q (List.mem_cons_of_mem _ hq)
      simp [stopAllGo, hr, ih hrest]

theorem stopAllGo_error (conv : Recording → Bool) (nowMs : Nat)
    (l : List (String × Recording))
    (hf : ∃ p ∈ l, conv p.2 = false) :
    stopAllGo conv nowMs l = .error "ConversionFailed" := by
  induction l with
  | nil => simp at hf
  | cons p rest ih =>
      obtain ⟨k, r⟩ := p
      by_cases hr : conv r = true
      · have hfr : ∃ q ∈ rest, conv q.2 = false := by
          obtain ⟨q, hq, hqf⟩ := hf
          rcases List.mem_cons.mp hq with heq | hmem
          · subst heq
            rw [hr] at hqf
            exact absurd hqf (by simp)
          · exact ⟨q, hmem, hqf⟩
        simp [stopAllGo, hr, ih hfr]
      · have : conv r = false := by
          cases h : conv r
          · rfl
          · exact absurd h hr
        simp [stopAllGo, this]

/-! ## C7 — endSession result -/

/-- Written to the amended claim's words, for comparison with the code:
`endSession` resolves with a record carrying the session identifier when an
active session exists for the channel, and resolves with `null` (it does
not fail) when none exists. -/
def endSessionResultSpec (sm : SMState) (channelId : String) (nowMs : Nat) :
    Except String (Option EndResult) :=
  match mapFind sm.activeSessions channelId with
  | none => .ok none
  | some s =>
      .ok (some { sessionId := s.session_id,
                  duration := nowMs / 1000 - s.start_time,
                  participantCount := s.participants.length })

/-- C7 counterexample to the claim as stated: ending the session of a
channel with no active session resolves with `null` — it does not fail
with `NoActiveSession` (no error is signalled at all). -/
theorem endSession_no_session_returns_null_cex :
    (endSessionSM initBot.sm "c" (fun _ => true) trStubFn 1000).2
      = .ok none := rfl

/-- C7 (amended): whenever every open capture's conversion succeeds,
`endSession` resolves with a record carrying the session identifier when an
active session exists for the channel, and resolves with `null` — rather
than failing — when none exists. -/
theorem endSession_refines_id_or_null (sm : SMState) (channelId : String)
    (conv : Recording → Bool) (tr : String → TranscriptionResult)
    (nowMs : Nat) (hc : ∀ p ∈ sm.recorder.recordings, conv p.2 = true) :
    (endSessionSM sm channelId conv tr nowMs).2
      = endSessionResultSpec sm channelId nowMs := by
  unfold endSessionSM endSessionResultSpec
  cases h : mapFind sm.activeSessions channelId with
  | none => rfl
  | some s =>
      have hstop := stopAllGo_ok conv nowMs sm.recorder.recordings hc
      simp [stopAllRecordings, hstop]

/-- A one-session, one-capture state for the C7 witness. -/
def c7Session : Session :=
  { session_id := "s1", guild_id := "g1", channel_id := "c",
    channel_name := "General", start_time := 10, participants := ["u1"] }

def c7SM : SMState :=
  { db := dbEmpty, recorder := c4Recorder,
    activeSessions := [("c", c7Session)],
    userSessions := [("u1", { sessionId := "s1", startTime := 10 })] }

theorem endSession_refines_id_or_null_witness :
    (endSessionSM c7SM "c" (fun _ => true) trStubFn 90000).2
      = endSessionResultSpec c7SM "c" 90000 :=
  endSession_refines_id_or_null c7SM "c" (fun _ => true) trStubFn 90000
    (fun _ _ => rfl)

/-! ## C6 — join on a connected channel, leave on a disconnected one -/

/-- A guild and a member-free channel for connection fixtures. -/
def c6Guild : Guild := { id := "g1", name := "Guild One" }

def c6Channel : Channel := { id := "c", name := "General", members := [] }

/-- A state holding a connection for channel `"c"`, built by a successful
join from the initial state. -/
def c6State : BotState :=
  (joinChannel initBot c6Channel c6Guild true "s1" 1000).1

/-- C6 counterexample to the claim as stated: joining a channel that
already has a connection resolves with the existing connection — no
`AlreadyConnected` failure — and leaving a channel with no connection
resolves with nothing — no `NotConnected` failure.  Both violations are
silently swallowed (only logged). -/
theorem join_leave_no_failure_cex :
    (joinChannel c6State c6Channel c6Guild true "s2" 2000).2
      = .ok .existingConnection ∧
    (leaveChannel initBot "c" (fun _ => true) trStubFn 2000).2
      = .ok none := by
  constructor
  · rfl
  · rfl

/-- C6 (amended): joining when a connection for the channel already exists
returns the existing connection without error and without touching any
state (in particular no new session is created), and leaving when no
connection exists returns without error and without touching any state;
both cases are logged only, not signalled as failures. -/
theorem join_leave_silently_accept (stA stB : BotState) (channel : Channel)
    (guild : Guild) (ready : Bool) (sid : String) (t1 : Nat) (cB : String)
    (conv : Recording → Bool) (tr : String → TranscriptionResult) (t2 : Nat)
    (cd : ConnData) (hA : mapFind stA.connections channel.id = some cd)
    (hB : mapFind stB.connections cB = none) :
    joinChannel stA channel guild ready sid t1
      = (stA, .ok .existingConnection) ∧
    leaveChannel stB cB conv tr t2 = (stB, .ok none) := by
  constructor
  · unfold joinChannel
    rw [hA]
    rfl
  · unfold leaveChannel
    rw [hB]

theorem join_leave_silently_accept_witness :
    joinChannel c6State c6Channel c6Guild false "s3" 3000
      = (c6State, .ok .existingConnection) ∧
    leaveChannel initBot "elsewhere" (fun _ => true) trStubFn 3000
      = (initBot, .ok none) :=
  join_leave_silently_accept c6State initBot c6Channel c6Guild false "s3"
    3000 "elsewhere" (fun _ => true) trStubFn 3000
    { sessionId := "s1", channelId := "c", guildId := "g1" }
    (by decide) (by decide)

/-! ## C1 — conversion failure during session end -/

/-- Fixtures: a session on channel `"c"` with two participants whose
captures are both open; conversion succeeds for `u2` and fails for `u1`. -/
def c1Rec1 : Recording :=
  { userId := "u1", username := "Alice", sessionId := "s1",
    startTimeMs := 11000, chunks := [[1, 1]], endTimeMs := none,
    wavPath := none }

def c1Rec2 : Recording :=
  { userId := "u2", username := "Bob", sessionId := "s1",
    startTimeMs := 12000, chunks := [[2, 2]], endTimeMs := none,
    wavPath := none }

def c1Session : Session :=
  { session_id := "s1", guild_id := "g1", channel_id := "c",
    channel_name := "General", start_time := 10,
    participants := ["u1", "u2"] }

def c1SM : SMState :=
  { db := dbCreateSession dbEmpty
      { session_id := "s1", guild_id := "g1", channel_id := "c",
        start_time := 10, end_time := none, duration := none,
        status := "active", participant_count := 0 },
    recorder := { recordings := [("u1", c1Rec1), ("u2", c1Rec2)] },
    activeSessions := [("c", c1Session)],
    userSessions := [("u1", { sessionId := "s1", startTime := 11 }),
                     ("u2", { sessionId := "s1", startTime := 12 })] }

def c1Conv : Recording → Bool := fun r => r.userId == "u2"

/-- C1 counterexample to the claim as stated: ending the session of
channel `"c"` while the capture of `u1` fails conversion does not complete
closure — the call rejects with the conversion error, the session is still
in the active set afterwards, and no session record is produced (the
database still holds only the untouched `active` session row). -/
theorem endSession_conversion_failure_cex :
    (endSessionSM c1SM "c" c1Conv trStubFn 99000).2
      = .error "ConversionFailed" ∧
    mapFind (endSessionSM c1SM "c" c1Conv trStubFn 99000).1.activeSessions "c"
      = some c1Session ∧
    (endSessionSM c1SM "c" c1Conv trStubFn 99000).1.db = c1SM.db := by
  refine ⟨rfl, rfl, rfl⟩

/-- C1 (amended): when a session being ended has an open capture whose
conversion fails, every open capture is still stopped (the recorder ends
empty), but session closure does not complete: `endSession` rejects with
the conversion error, the session stays in the active set, and the
database — session record included — is untouched.  (Only when every
conversion succeeds does closure complete, and then captures whose
transcription text is empty are excluded, which is what can leave a record
with fewer transcripts than participants.) -/
theorem endSession_conversion_failure_aborts_closure (sm : SMState)
    (channelId : String) (s : Session) (conv : Recording → Bool)
    (tr : String → TranscriptionResult) (nowMs : Nat)
    (hs : mapFind sm.activeSessions channelId = some s)
    (hf : ∃ p ∈ sm.recorder.recordings, conv p.2 = false) :
    endSessionSM sm channelId conv tr nowMs
      = ({ sm with recorder := { recordings := [] } },
         .error "ConversionFailed") := by
  have hstop := stopAllGo_error conv nowMs sm.recorder.recordings hf
  unfold endSessionSM
  rw [hs]
  simp [stopAllRecordings, hstop]

theorem endSession_conversion_failure_aborts_closure_witness :
    endSessionSM c1SM "c" c1Conv trStubFn 99000
      = ({ c1SM with recorder := { recordings := [] } },
         .error "ConversionFailed") :=
  endSession_conversion_failure_aborts_closure c1SM "c" c1Session c1Conv
    trStubFn 99000 (by decide) ⟨("u1", c1Rec1), by decide, by decide⟩

/-! ## C2 — a second presence notification for the same user -/

theorem setAdd_of_not_mem {l : List String} {x : String} (h : x ∉ l) :
    setAdd l x = l ++ [x] := by
  simp [setAdd, h]

theorem setAdd_of_mem {l : List String} {x : String} (h : x ∈ l) :
    setAdd l x = l := by
  simp [setAdd, h]

theorem mem_setAdd_self (l : List String) (x : String) : x ∈ setAdd l x := by
  unfold setAdd
  split
  · assumption
  · simp

/-- The effect of one addParticipant call on a state whose channel holds an
active session, for a non-bot user: participant-set insert, one database
INSERT, user-session (re)set, and a fresh recording replacing any open
one. -/
theorem addParticipantSM_eq (sm : SMState) (sid : String) (u : User)
    (channelId : String) (s : Session) (t : Nat)
    (hs : mapFind sm.activeSessions channelId = some s)
    (hb : u.bot = false) :
    addParticipantSM sm sid u channelId t
      = { db := dbAddParticipant sm.db
            { session_id := sid, user_id := u.id, username := u.username,
              joined_at := t / 1000, left_at := none, duration := none },
          recorder := startRecording sm.recorder u.id u.username sid t,
          activeSessions := mapUpdate sm.activeSessions channelId
            (fun x => { x with participants := setAdd x.participants u.id }),
          userSessions := mapSet sm.userSessions u.id
            { sessionId := sid, startTime := t / 1000 } } := by
  unfold addParticipantSM
  rw [hs]
  simp [hb]

/-- C2 (amended): notifying the presence of an already-present user a
second time keeps the in-memory participant set at exactly one entry for
the user and the recorder at exactly one open capture keyed by the user,
but it is not idempotent: the open capture is replaced by a fresh empty one
started at the second call's time, the user-session start time is reset,
and the database receives a second Participant row for the same
(session, user) pair. -/
theorem addParticipant_second_call_effects (sm : SMState) (sid : String)
    (u : User) (channelId : String) (s : Session) (t1 t2 : Nat)
    (hs : mapFind sm.activeSessions channelId = some s)
    (hb : u.bot = false) (hp : u.id ∉ s.participants)
    (hr : countKey sm.recorder.recordings u.id = 0) :
    mapFind (addParticipantSM (addParticipantSM sm sid u channelId t1)
        sid u channelId t2).activeSessions channelId
      = some { s with participants := s.participants ++ [u.id] } ∧
    (s.participants ++ [u.id]).count u.id = 1 ∧
    countKey (addParticipantSM (addParticipantSM sm sid u channelId t1)
        sid u channelId t2).recorder.recordings u.id = 1 ∧
    mapFind (addParticipantSM (addParticipantSM sm sid u channelId t1)
        sid u channelId t2).recorder.recordings u.id
      = some { userId := u.id, username := u.username, sessionId := sid,
               startTimeMs := t2, chunks := [], endTimeMs := none,
               wavPath := none } ∧
    (addParticipantSM (addParticipantSM sm sid u channelId t1)
        sid u channelId t2).db.participants
      = sm.db.participants
        ++ [{ session_id := sid, user_id := u.id, username := u.username,
              joined_at := t1 / 1000, left_at := none, duration := none },
            { session_id := sid, user_id := u.id, username := u.username,
              joined_at := t2 / 1000, left_at := none, duration := none }] ∧
    mapFind (addParticipantSM (addParticipantSM sm sid u channelId t1)
        sid u channelId t2).userSessions u.id
      = some { sessionId := sid, startTime := t2 / 1000 } := by
  have h1 := addParticipantSM_eq sm sid u channelId s t1 hs hb
  have hfind1 : mapFind (addParticipantSM sm sid u channelId t1).activeSessions
      channelId = some { s with participants := setAdd s.participants u.id } := by
    rw [h1]
    simp [mapFind_mapUpdate_self, hs]
  have h2 := addParticipantSM_eq (addParticipantSM sm sid u channelId t1)
    sid u channelId { s with participants := setAdd s.participants u.id } t2
    hfind1 hb
  refine ⟨?_, ?_, ?_, ?_, ?_, ?_⟩
  · rw [h2, h1]
    simp [mapFind_mapUpdate_self, hs,
      setAdd_of_mem (mem_setAdd_self s.participants u.id),
      setAdd_of_not_mem hp]
    exact setAdd_of_mem (by simp)
  · rw [List.count_append]
    have h0 : s.participants.count u.id = 0 :=
      List.count_eq_zero.mpr (by simpa using hp)
    simp [h0]
  · rw [h2, h1]
    simp only [startRecording]
    rw [countKey_mapSet_self, countKey_mapSet_self, hr]
    decide
  · rw [h2, h1]
    simp only [startRecording]
    exact mapFind_mapSet_self _ _ _
  · rw [h2, h1]
    simp [dbAddParticipant]
  · rw [h2, h1]
    simp only
    exact mapFind_mapSet_self _ _ _

/-- Fixtures for C2: a session on channel `"c"` with no participants yet,
and a non-bot user joining twice. -/
def c2Session : Session :=
  { session_id := "s1", guild_id := "g1", channel_id := "c",
    channel_name := "General", start_time := 10, participants := [] }

def c2SM : SMState :=
  { db := dbEmpty, recorder := { recordings := [] },
    activeSessions := [("c", c2Session)], userSessions := [] }

def c2User : User := { id := "u1", username := "Alice", bot := false }

/-- C2 counterexample to the claim as stated: the state after the second
presence call differs from the state after the first, and the database
holds two Participant rows for the same (session, user) pair instead of
one. -/
theorem addParticipant_twice_cex :
    addParticipantSM (addParticipantSM c2SM "s1" c2User "c" 11000)
        "s1" c2User "c" 22000
      ≠ addParticipantSM c2SM "s1" c2User "c" 11000 ∧
    (addParticipantSM (addParticipantSM c2SM "s1" c2User "c" 11000)
        "s1" c2User "c" 22000).db.participants.length = 2 ∧
    (addParticipantSM c2SM "s1" c2User "c" 11000).db.participants.length
      = 1 := by
  refine ⟨by decide, rfl, rfl⟩

theorem addParticipant_second_call_effects_witness :
    mapFind (addParticipantSM (addParticipantSM c2SM "s1" c2User "c" 11000)
        "s1" c2User "c" 22000).activeSessions "c"
      = some { c2Session with
               participants := c2Session.participants ++ ["u1"] } ∧
    (c2Session.participants ++ ["u1"]).count "u1" = 1 ∧
    countKey (addParticipantSM (addParticipantSM c2SM "s1" c2User "c" 11000)
        "s1" c2User "c" 22000).recorder.recordings "u1" = 1 ∧
    mapFind (addParticipantSM (addParticipantSM c2SM "s1" c2User "c" 11000)
        "s1" c2User "c" 22000).recorder.recordings "u1"
      = some { userId := "u1", username := "Alice", sessionId := "s1",
               startTimeMs := 22000, chunks := [], endTimeMs := none,
               wavPath := none } ∧
    (addParticipantSM (addParticipantSM c2SM "s1" c2User "c" 11000)
        "s1" c2User "c" 22000).db.participants
      = c2SM.db.participants
        ++ [{ session_id := "s1", user_id := "u1", username := "Alice",
              joined_at := 11000 / 1000, left_at := none, duration := none },
            { session_id := "s1", user_id := "u1", username := "Alice",
              joined_at := 22000 / 1000, left_at := none, duration := none }] ∧
    mapFind (addParticipantSM (addParticipantSM c2SM "s1" c2User "c" 11000)
        "s1" c2User "c" 22000).userSessions "u1"
      = some { sessionId := "s1", startTime := 22000 / 1000 } :=
  addParticipant_second_call_effects c2SM "s1" c2User "c" c2Session
    11000 22000 (by decide) rfl (by decide) rfl

/-! ## C9 — endSession stops every recording and stores all transcripts
under the ending session -/

theorem foldl_processRecording_transcriptions (recs : List Recording)
    (db : DB) (sid : String) (tr : String → TranscriptionResult) :
    (recs.foldl (fun d r => processRecording d r sid tr) db).transcriptions
      = db.transcriptions ++ (recs.map (trRows sid tr)).flatten := by
  induction recs generalizing db with
  | nil => simp
  | cons r rest ih =>
      simp only [List.foldl_cons, List.map_cons, List.flatten_cons]
      rw [ih]
      simp [processRecording, List.append_assoc]

theorem closeParticipant_fst_transcriptions (sid : String) (endTime : Nat)
    (acc : DB × List (String × UserSession)) (uid : String) :
    ((closeParticipant sid endTime acc uid).1).transcriptions
      = acc.1.transcriptions := by
  unfold closeParticipant
  split
  · split
    · rfl
    · rfl
  · rfl

theorem foldl_closeParticipant_transcriptions (l : List String) (db : DB)
    (us : List (String × UserSession)) (sid : String) (endTime : Nat) :
    ((l.foldl (closeParticipant sid endTime) (db, us)).1).transcriptions
      = db.transcriptions := by
  induction l generalizing db us with
  | nil => rfl
  | cons uid rest ih =>
      simp only [List.foldl_cons]
      calc ((rest.foldl (closeParticipant sid endTime)
              (closeParticipant sid endTime (db, us) uid)).1).transcriptions
          = ((closeParticipant sid endTime (db, us) uid).1).transcriptions :=
            ih _ _
        _ = db.transcriptions :=
            closeParticipant_fst_transcriptions sid endTime (db, us) uid

theorem trRows_session_id (sid : String) (tr : String → TranscriptionResult)
    (r : Recording) (t : DbTranscription) (ht : t ∈ trRows sid tr r) :
    t.session_id = sid := by
  unfold trRows at ht
  cases hw : r.wavPath with
  | none =>
      rw [hw] at ht
      simp at ht
  | some wav =>
      rw [hw] at ht
      simp only at ht
      split at ht
      · simp at ht
      · simp at ht
        subst ht
        rfl

/-- C9 (implicit frame effect): ending the session of one channel stops
every open recording in the shared recorder — the recorder is keyed by
user only, so recordings opened for other sessions are stopped too — and
every recording stopped this way whose transcription text is nonempty is
stored under the ending session's identifier, regardless of the session
recorded in the recording itself; every transcription row the call adds
carries the ending session's id. -/
theorem endSession_stops_all_and_stores_under_ending_id (sm : SMState)
    (channelId : String) (s : Session) (conv : Recording → Bool)
    (tr : String → TranscriptionResult) (nowMs : Nat)
    (hs : mapFind sm.activeSessions channelId = some s)
    (hc : ∀ p ∈ sm.recorder.recordings, conv p.2 = true) :
    (endSessionSM sm channelId conv tr nowMs).1.recorder.recordings = [] ∧
    (∀ t ∈ (endSessionSM sm channelId conv tr nowMs).1.db.transcriptions,
        t ∈ sm.db.transcriptions ∨ t.session_id = s.session_id) ∧
    (∀ p ∈ sm.recorder.recordings,
        trimmedEmpty (tr (wavName p.2)).text = false →
        ∃ t ∈ (endSessionSM sm channelId conv tr nowMs).1.db.transcriptions,
          t.user_id = p.2.userId ∧ t.session_id = s.session_id) := by
  have hstop := stopAllGo_ok conv nowMs sm.recorder.recordings hc
  have hrec : (endSessionSM sm channelId conv tr nowMs).1.recorder
      = { recordings := [] } := by
    unfold endSessionSM
    rw [hs]
    simp [stopAllRecordings, hstop]
  have htrans : (endSessionSM sm channelId conv tr nowMs).1.db.transcriptions
      = sm.db.transcriptions
        ++ ((sm.recorder.recordings.map
              (fun p => finishRecording p.2 nowMs)).map
                (trRows s.session_id tr)).flatten := by
    unfold endSessionSM
    rw [hs]
    simp only [stopAllRecordings, hstop, dbEndSession]
    rw [foldl_closeParticipant_transcriptions,
      foldl_processRecording_transcriptions]
  refine ⟨by rw [hrec], ?_, ?_⟩
  · intro t ht
    rw [htrans] at ht
    rcases List.mem_append.mp ht with hold | hnew
    · exact Or.inl hold
    · obtain ⟨rows, hrows, htr⟩ := List.mem_flatten.mp hnew
      obtain ⟨r', _, rfl⟩ := List.mem_map.mp hrows
      exact Or.inr (trRows_session_id _ tr r' t htr)
  · intro p hp hne
    have hrow : trRows s.session_id tr (finishRecording p.2 nowMs)
        = [{ session_id := s.session_id, user_id := p.2.userId,
             username := p.2.username, audio_file := wavName p.2,
             transcript := (tr (wavName p.2)).text,
             confidence := (tr (wavName p.2)).confidence,
             language := (tr (wavName p.2)).language,
             timestamp := p.2.startTimeMs / 1000,
             duration := (tr (wavName p.2)).duration,
             word_count := (tr (wavName p.2)).wordCount }] := by
      unfold trRows finishRecording
      simp [hne]
    refine ⟨{ session_id := s.session_id, user_id := p.2.userId,
              username := p.2.username, audio_file := wavName p.2,
              transcript := (tr (wavName p.2)).text,
              confidence := (tr (wavName p.2)).confidence,
              language := (tr (wavName p.2)).language,
              timestamp := p.2.startTimeMs / 1000,
              duration := (tr (wavName p.2)).duration,
              word_count := (tr (wavName p.2)).wordCount }, ?_, rfl, rfl⟩
    rw [htrans]
    apply List.mem_append_right
    apply List.mem_flatten.mpr
    refine ⟨trRows s.session_id tr (finishRecording p.2 nowMs), ?_, ?_⟩
    · exact List.mem_map_of_mem _ (List.mem_map_of_mem _ hp)
    · rw [hrow]
      exact List.mem_singleton_self _

/-- Fixtures for C9: sessions `sA` (channel `cA`) and `sB` (channel `cB`)
are both active; the shared recorder holds an open recording for `u1`
opened by `sA` and one for `u2` opened by `sB`. -/
def c9RecA : Recording :=
  { userId := "u1", username := "Alice", sessionId := "sA",
    startTimeMs := 1000, chunks := [[1]], endTimeMs := none,
    wavPath := none }

def c9RecB : Recording :=
  { userId := "u2", username := "Bob", sessionId := "sB",
    startTimeMs := 2000, chunks := [[2]], endTimeMs := none,
    wavPath := none }

def c9SessA : Session :=
  { session_id := "sA", guild_id := "g1", channel_id := "cA",
    channel_name := "Alpha", start_time := 1, participants := ["u1"] }

def c9SessB : Session :=
  { session_id := "sB", guild_id := "g1", channel_id := "cB",
    channel_name := "Beta", start_time := 2, participants := ["u2"] }

def c9SM : SMState :=
  { db := dbEmpty,
    recorder := { recordings := [("u1", c9RecA), ("u2", c9RecB)] },
    activeSessions := [("cA", c9SessA), ("cB", c9SessB)],
    userSessions := [("u1", { sessionId := "sA", startTime := 1 }),
                     ("u2", { sessionId := "sB", startTime := 2 })] }

theorem endSession_stops_all_and_stores_under_ending_id_witness :
    (endSessionSM c9SM "cA" (fun _ => true) trStubFn 60000).1.recorder.recordings
      = [] ∧
    (∀ t ∈ (endSessionSM c9SM "cA" (fun _ => true) trStubFn 60000).1.db.transcriptions,
        t ∈ c9SM.db.transcriptions ∨ t.session_id = c9SessA.session_id) ∧
    (∀ p ∈ c9SM.recorder.recordings,
        trimmedEmpty (trStubFn (wavName p.2)).text = false →
        ∃ t ∈ (endSessionSM c9SM "cA" (fun _ => true) trStubFn 60000).1.db.transcriptions,
          t.user_id = p.2.userId ∧ t.session_id = c9SessA.session_id) :=
  endSession_stops_all_and_stores_under_ending_id c9SM "cA" c9SessA
    (fun _ => true) trStubFn 60000 (by decide) (fun _ _ => rfl)
